import Mathlib

/-
  Shallow embedding of the pong repository (clock.c, court.c, paddle.c,
  ball.c, pong.c).  C ints are modelled as Lean Int; the C library rand()
  is modelled by passing each drawn value as an explicit Nat parameter;
  curses drawing calls have no effect on the game state and are omitted.
  Every arithmetic division in the source acts on non-negative operands,
  where C truncating division agrees with Lean Int division.
-/

/- ===== constants (ball.h, court.h, pong.h, clock.h, ball.c, pong.c) ===== -/

def LOSE : Int := -1

def NO_CONTACT : Int := 0

def CONTACT : Int := 1

def BOUNCE : Int := 1

def NUM_BALLS : Int := 3

def MAX_DELAY : Int := 10

def BORDER : Int := 3

def TICKS_PER_SEC : Int := 50

def MINUTE : Int := 60

def MIN_LINES : Int := 11

def MIN_COLS : Int := 40

def DFL_SYMBOL : Char := 'O'

/- ===== clock.c ===== -/

structure Timer where
  mins : Int
  secs : Int
  ticks : Int
deriving DecidableEq

def clock_init : Timer := { mins := 0, secs := 0, ticks := 0 }

/-- clock_tick(): pre-increment ticks; on reaching TICKS_PER_SEC increment
    secs (wrapping at MINUTE into mins) and reset ticks. -/
def clock_tick (c : Timer) : Timer :=
  let ticks := c.ticks + 1
  if ticks = TICKS_PER_SEC then
    let secs := c.secs + 1
    if secs = MINUTE then
      { mins := c.mins + 1, secs := 0, ticks := 0 }
    else
      { c with secs := secs, ticks := 0 }
  else
    { c with ticks := ticks }

def get_mins (c : Timer) : Int := c.mins

def get_secs (c : Timer) : Int := c.secs

/- ===== court.c ===== -/

structure Ppcourt where
  top : Int
  right : Int
  bot : Int
  left : Int
deriving DecidableEq

def court_init (top right bot left : Int) : Ppcourt :=
  { top := top, right := right, bot := bot, left := left }

def get_top_edge (c : Ppcourt) : Int := c.top

def get_right_edge (c : Ppcourt) : Int := c.right

def get_bot_edge (c : Ppcourt) : Int := c.bot

def get_left_edge (c : Ppcourt) : Int := c.left

/-- set_up() in pong.c: court dimensions derived from the terminal size. -/
def set_up_court (LINES COLS : Int) : Ppcourt :=
  court_init BORDER (COLS - BORDER - 1) (LINES - BORDER - 1) BORDER

/- ===== paddle.c ===== -/

structure Pppaddle where
  pad_char : Char
  pad_top : Int
  pad_bot : Int
  pad_col : Int
  pad_mintop : Int
  pad_maxbot : Int
deriving DecidableEq

/-- paddle_init(): LINES is the terminal height used for the bounds. -/
def paddle_init (LINES : Int) (c : Ppcourt) (top height : Int) : Pppaddle :=
  { pad_char := '#'
    pad_mintop := BORDER
    pad_maxbot := LINES - BORDER - 1
    pad_col := get_right_edge c
    pad_top := top
    pad_bot := top + height - 1 }

def new_paddle (LINES : Int) (c : Ppcourt) : Pppaddle :=
  let court_height := get_bot_edge c - get_top_edge c - 1
  let paddle_height := court_height / 3
  let paddle_top := LINES / 2 - paddle_height / 2
  paddle_init LINES c paddle_top paddle_height

def paddle_up (pp : Pppaddle) : Pppaddle :=
  if pp.pad_top - 1 > pp.pad_mintop then
    { pp with pad_top := pp.pad_top - 1, pad_bot := pp.pad_bot - 1 }
  else
    pp

def paddle_down (pp : Pppaddle) : Pppaddle :=
  if pp.pad_bot + 1 < pp.pad_maxbot then
    { pp with pad_top := pp.pad_top + 1, pad_bot := pp.pad_bot + 1 }
  else
    pp

def paddle_contact (y : Int) (pp : Pppaddle) : Int :=
  if pp.pad_top ≤ y ∧ y ≤ pp.pad_bot then CONTACT else NO_CONTACT

inductive PaddleMove where
  | up : PaddleMove
  | down : PaddleMove
deriving DecidableEq

def apply_move (m : PaddleMove) (pp : Pppaddle) : Pppaddle :=
  match m with
  | PaddleMove.up => paddle_up pp
  | PaddleMove.down => paddle_down pp

def apply_moves (ms : List PaddleMove) (pp : Pppaddle) : Pppaddle :=
  match ms with
  | [] => pp
  | m :: rest => apply_moves rest (apply_move m pp)

/- ===== ball.c ===== -/

structure Ppball where
  remain : Int
  x_pos : Int
  y_pos : Int
  x_dir : Int
  y_dir : Int
  x_delay : Int
  y_delay : Int
  x_count : Int
  y_count : Int
  symbol : Char
deriving DecidableEq

/-- rand_number(min, max) = (rand() % (max - min)) + min, with the rand()
    draw passed in as the non-negative value r. -/
def rand_number (r : Nat) (min max : Int) : Int :=
  (r : Int) % (max - min) + min

/-- start_dir(): -1 when the rand() draw is even, else 1. -/
def start_dir (r : Nat) : Int :=
  if r % 2 = 0 then -1 else 1

/-- One rand() draw for each of the six calls made by ball_init. -/
structure Rands where
  rYpos : Nat
  rXpos : Nat
  rYdir : Nat
  rXdir : Nat
  rYdelay : Nat
  rXdelay : Nat
deriving DecidableEq

def ball_init (c : Ppcourt) (rs : Rands) (bp : Ppball) : Ppball :=
  { bp with
    y_pos := rand_number rs.rYpos (get_top_edge c + 1) (get_bot_edge c - 1)
    x_pos := rand_number rs.rXpos (get_left_edge c + 1) (get_right_edge c - 1)
    y_dir := start_dir rs.rYdir
    x_dir := start_dir rs.rXdir
    y_count := rand_number rs.rYdelay 1 MAX_DELAY
    y_delay := rand_number rs.rYdelay 1 MAX_DELAY
    x_count := rand_number rs.rXdelay 1 (MAX_DELAY / 2)
    x_delay := rand_number rs.rXdelay 1 (MAX_DELAY / 2)
    symbol := DFL_SYMBOL
    remain := bp.remain - 1 }

/-- new_ball(): malloc leaves the fields arbitrary (parameter junk) and only
    remain is set. -/
def new_ball (junk : Ppball) : Ppball :=
  { junk with remain := NUM_BALLS }

/-- ball_move(): on each axis, when the delay is positive the counter is
    pre-decremented; on reaching zero the position advances by the direction
    and the counter resets to the delay. -/
def ball_move (bp : Ppball) : Ppball :=
  let b1 :=
    if bp.y_delay > 0 then
      if bp.y_count - 1 = 0 then
        { bp with y_pos := bp.y_pos + bp.y_dir, y_count := bp.y_delay }
      else
        { bp with y_count := bp.y_count - 1 }
    else
      bp
  if b1.x_delay > 0 then
    if b1.x_count - 1 = 0 then
      { b1 with x_pos := b1.x_pos + b1.x_dir, x_count := b1.x_delay }
    else
      { b1 with x_count := b1.x_count - 1 }
  else
    b1

/-- bounce_or_lose(): vertical wall checks first, then horizontal; the
    paddle-hit branch redraws both delays from two fresh rand() draws rA
    (horizontal) and rB (vertical).  Returns the return_val together with
    the updated ball. -/
def bounce_or_lose (c : Ppcourt) (rA rB : Nat) (bp : Ppball) (pp : Pppaddle) :
    Int × Ppball :=
  let vres : Int × Ppball :=
    if bp.y_pos = get_top_edge c + 1 then
      (BOUNCE, { bp with y_dir := 1 })
    else if bp.y_pos = get_bot_edge c - 1 then
      (BOUNCE, { bp with y_dir := -1 })
    else
      (NO_CONTACT, bp)
  let b1 := vres.2
  if b1.x_pos = get_left_edge c + 1 then
    (BOUNCE, { b1 with x_dir := 1 })
  else if b1.x_pos = get_right_edge c - 1 then
    (if paddle_contact b1.y_pos pp = CONTACT then
      (BOUNCE, { b1 with
                  x_delay := rand_number rA 1 (MAX_DELAY / 2)
                  y_delay := rand_number rB 1 MAX_DELAY
                  x_dir := -1 })
    else
      (LOSE, b1))
  else
    (vres.1, b1)

def get_balls_left (bp : Ppball) : Int := bp.remain

/-- serve(): ball_init plus drawing calls that do not change the state. -/
def serve (c : Ppcourt) (rs : Rands) (bp : Ppball) : Ppball :=
  ball_init c rs bp

/- ===== pong.c round transition ===== -/

inductive RoundAction where
  | noRound : RoundAction
  | reserve : RoundAction
  | gameOver : RoundAction
deriving DecidableEq

/-- is_next_round(): on LOSE, serve again when balls remain, otherwise the
    game ends (exit_message/wrap_up/exit in the source). -/
def is_next_round (c : Ppcourt) (rA rB : Nat) (rs : Rands) (bp : Ppball)
    (pp : Pppaddle) : RoundAction × Ppball :=
  let res := bounce_or_lose c rA rB bp pp
  if res.1 = LOSE then
    if get_balls_left res.2 > 0 then
      (RoundAction.reserve, serve c rs res.2)
    else
      (RoundAction.gameOver, res.2)
  else
    (RoundAction.noRound, res.2)

/- ===== concrete states used by witnesses and counterexamples ===== -/

/-- Ball just inside the right edge of the 11x40 court, at the top trigger
    row. -/
def ballW : Ppball :=
  { remain := 2, x_pos := 35, y_pos := 4, x_dir := 1, y_dir := -1
    x_delay := 2, y_delay := 1, x_count := 2, y_count := 1, symbol := 'O' }

/-- Paddle away from row 4, so paddle_contact 4 paddleW = NO_CONTACT. -/
def paddleW : Pppaddle :=
  { pad_char := '#', pad_top := 10, pad_bot := 12, pad_col := 36
    pad_mintop := 3, pad_maxbot := 7 }

def junkBall : Ppball :=
  { remain := 0, x_pos := 0, y_pos := 0, x_dir := 0, y_dir := 0
    x_delay := 0, y_delay := 0, x_count := 0, y_count := 0, symbol := 'O' }

/-- rand() draws making serve place the ball at the top interior row moving
    up with vertical delay 1. -/
def rserve : Rands :=
  { rYpos := 0, rXpos := 6, rYdir := 0, rXdir := 1, rYdelay := 0, rXdelay := 1 }

/- ===== helper lemmas ===== -/

/-- Closed form of the clock state after N ticks. -/
theorem clock_state (N : Nat) :
    clock_tick^[N] clock_init =
      { mins := ((N / 50 / 60 : Nat) : Int)
        secs := ((N / 50 % 60 : Nat) : Int)
        ticks := ((N % 50 : Nat) : Int) } := by
  induction N with
  | zero => simp [clock_init]
  | succ n ih =>
    rw [Function.iterate_succ_apply', ih]
    simp only [clock_tick, TICKS_PER_SEC, MINUTE]
    split_ifs with h1 h2 <;> simp only [Timer.mk.injEq] <;> omega

/- ===== claim theorems ===== -/

/-- Claim C2: starting from clock_init, after N clock_tick calls with
    TICKS_PER_SEC = 50 the total elapsed seconds get_secs + 60 * get_mins
    equals floor(N/50) and get_secs equals floor(N/50) mod 60; in
    particular after 150 ticks the clock shows 0 minutes 3 seconds. -/
theorem clock_tick_totals (N : Nat) :
    get_secs (clock_tick^[N] clock_init) +
        60 * get_mins (clock_tick^[N] clock_init) = ((N / 50 : Nat) : Int) ∧
    get_secs (clock_tick^[N] clock_init) = ((N / 50 % 60 : Nat) : Int) ∧
    get_mins (clock_tick^[150] clock_init) = 0 ∧
    get_secs (clock_tick^[150] clock_init) = 3 := by
  rw [clock_state, clock_state]
  simp only [get_secs, get_mins]
  refine ⟨by omega, by norm_num, by norm_num, by norm_num⟩

/-- bounce_or_lose never touches the remain field (helper shared by several
    theorems). -/
theorem bounce_remain_eq (c : Ppcourt) (rA rB : Nat) (bp : Ppball)
    (pp : Pppaddle) :
    (bounce_or_lose c rA rB bp pp).2.remain = bp.remain := by
  unfold bounce_or_lose
  dsimp only
  split_ifs <;> rfl

/-- serve decrements remain by exactly one (helper). -/
theorem serve_remain (c : Ppcourt) (rs : Rands) (bp : Ppball) :
    (serve c rs bp).remain = bp.remain - 1 := rfl

/-- The paddle invariant: the paddle stays inside its movement bounds. -/
def paddle_inv (pp : Pppaddle) : Prop :=
  pp.pad_mintop ≤ pp.pad_top ∧ pp.pad_bot ≤ pp.pad_maxbot

/-- A single up/down command preserves the movement bounds (helper). -/
theorem apply_move_inv (m : PaddleMove) (pp : Pppaddle) (h : paddle_inv pp) :
    paddle_inv (apply_move m pp) := by
  obtain ⟨h1, h2⟩ := h
  cases m <;>
    simp only [apply_move, paddle_up, paddle_down, paddle_inv] <;>
    split_ifs <;> (try dsimp only) <;> omega

/-- Any command sequence preserves the movement bounds (helper). -/
theorem apply_moves_inv (ms : List PaddleMove) (pp : Pppaddle)
    (h : paddle_inv pp) : paddle_inv (apply_moves ms pp) := by
  induction ms generalizing pp with
  | nil => exact h
  | cons m rest ih => exact ih _ (apply_move_inv m pp h)

/-- The freshly created paddle satisfies the movement bounds when the
    terminal is at least MIN_LINES tall (helper). -/
theorem new_paddle_inv (L C : Int) (hL : 11 ≤ L) :
    paddle_inv (new_paddle L (set_up_court L C)) := by
  simp only [new_paddle, paddle_init, set_up_court, court_init, get_bot_edge,
    get_top_edge, get_right_edge, paddle_inv, BORDER]
  constructor <;> omega

/-- Claim C1: when the ball sits on a vertical-wall trigger row (top+1 or
    bottom-1) and simultaneously on the right-edge trigger column right-1
    with no paddle contact at that row, bounce_or_lose returns LOSE: the
    right-edge loss overwrites the earlier vertical BOUNCE flag.  The
    hypothesis hw reflects the enforced minimum court width (left+1 and
    right-1 are distinct columns). -/
theorem bounce_right_edge_lose (c : Ppcourt) (rA rB : Nat) (bp : Ppball)
    (pp : Pppaddle)
    (hw : get_left_edge c + 1 < get_right_edge c - 1)
    (hy : bp.y_pos = get_top_edge c + 1 ∨ bp.y_pos = get_bot_edge c - 1)
    (hx : bp.x_pos = get_right_edge c - 1)
    (hnc : paddle_contact bp.y_pos pp = NO_CONTACT) :
    (bounce_or_lose c rA rB bp pp).1 = LOSE := by
  have hx1 : bp.x_pos ≠ get_left_edge c + 1 := by omega
  have hcc : paddle_contact bp.y_pos pp ≠ CONTACT := by
    rw [hnc]
    simp [NO_CONTACT, CONTACT]
  unfold bounce_or_lose
  dsimp only
  rcases hy with hy | hy <;> split_ifs <;> simp_all

/-- Witness for C1 at a concrete state on the 11x40 court. -/
theorem bounce_right_edge_lose_witness :
    (get_left_edge (court_init 3 36 7 3) + 1 <
        get_right_edge (court_init 3 36 7 3) - 1) ∧
    (bounce_or_lose (court_init 3 36 7 3) 0 0 ballW paddleW).1 = LOSE :=
  ⟨by decide,
   bounce_right_edge_lose (court_init 3 36 7 3) 0 0 ballW paddleW
     (by decide) (Or.inl (by decide)) (by decide) (by decide)⟩

/-- Claim C3: from a paddle freshly created by new_paddle on the enforced
    minimum terminal, every sequence of paddle_up/paddle_down commands keeps
    pad_mintop ≤ pad_top and pad_bot ≤ pad_maxbot; moreover paddle_up is a
    no-op when pad_top - 1 ≤ pad_mintop and paddle_down is a no-op when
    pad_bot + 1 ≥ pad_maxbot. -/
theorem paddle_bounds_invariant (L C : Int) (hL : 11 ≤ L) (hC : 40 ≤ C)
    (ms : List PaddleMove) (pq : Pppaddle) :
    ((apply_moves ms (new_paddle L (set_up_court L C))).pad_mintop ≤
        (apply_moves ms (new_paddle L (set_up_court L C))).pad_top ∧
      (apply_moves ms (new_paddle L (set_up_court L C))).pad_bot ≤
        (apply_moves ms (new_paddle L (set_up_court L C))).pad_maxbot) ∧
    (pq.pad_top - 1 ≤ pq.pad_mintop → paddle_up pq = pq) ∧
    (pq.pad_maxbot ≤ pq.pad_bot + 1 → paddle_down pq = pq) := by
  refine ⟨apply_moves_inv ms _ (new_paddle_inv L C hL), ?_, ?_⟩
  · intro h
    unfold paddle_up
    rw [if_neg (by omega)]
  · intro h
    unfold paddle_down
    rw [if_neg (by omega)]

/-- Witness for C3 on the minimum 11x40 terminal with one up command. -/
theorem paddle_bounds_invariant_witness :
    ((apply_moves [PaddleMove.up] (new_paddle 11 (set_up_court 11 40))).pad_mintop ≤
        (apply_moves [PaddleMove.up] (new_paddle 11 (set_up_court 11 40))).pad_top ∧
      (apply_moves [PaddleMove.up] (new_paddle 11 (set_up_court 11 40))).pad_bot ≤
        (apply_moves [PaddleMove.up] (new_paddle 11 (set_up_court 11 40))).pad_maxbot) ∧
    (paddleW.pad_top - 1 ≤ paddleW.pad_mintop → paddle_up paddleW = paddleW) ∧
    (paddleW.pad_maxbot ≤ paddleW.pad_bot + 1 → paddle_down paddleW = paddleW) :=
  paddle_bounds_invariant 11 40 (by norm_num) (by norm_num) [PaddleMove.up] paddleW

/-- Counterexample for C4: on the minimum 11x40 terminal, the paddle's
    movement bounds do not equal courtGeometry.top + BORDER and
    courtGeometry.bottom - BORDER - 1 as claimed; they equal the court's
    own top and bottom coordinates. -/
theorem new_paddle_bounds_cex :
    (new_paddle 11 (set_up_court 11 40)).pad_mintop ≠
        get_top_edge (set_up_court 11 40) + BORDER ∧
    (new_paddle 11 (set_up_court 11 40)).pad_maxbot ≠
        get_bot_edge (set_up_court 11 40) - BORDER - 1 := by
  decide

/-- Claim C4 (amended): paddle creation sets pad_mintop = BORDER, which
    coincides with the court's top border coordinate, and
    pad_maxbot = LINES - BORDER - 1, which coincides with the court's bottom
    border coordinate, for every terminal of the enforced minimum size. -/
theorem new_paddle_bounds_eq (L C : Int) (hL : 11 ≤ L) (hC : 40 ≤ C) :
    (new_paddle L (set_up_court L C)).pad_mintop =
        get_top_edge (set_up_court L C) ∧
    (new_paddle L (set_up_court L C)).pad_maxbot =
        get_bot_edge (set_up_court L C) := by
  simp [new_paddle, paddle_init, set_up_court, court_init, get_top_edge,
    get_bot_edge]

/-- Witness for the amended C4 at the minimum terminal size. -/
theorem new_paddle_bounds_eq_witness :
    (new_paddle 11 (set_up_court 11 40)).pad_mintop =
        get_top_edge (set_up_court 11 40) ∧
    (new_paddle 11 (set_up_court 11 40)).pad_maxbot =
        get_bot_edge (set_up_court 11 40) :=
  new_paddle_bounds_eq 11 40 (by norm_num) (by norm_num)

/-- Claim C5 (refuting the inclusive upper endpoints): a served ball's
    vertical delay is always strictly below MAX_DELAY and its horizontal
    delay strictly below MAX_DELAY / 2, because rand_number(min, max)
    ranges over [min, max-1]; the claimed upper endpoints are never
    attained. -/
theorem serve_delay_below_max (c : Ppcourt) (rs : Rands) (b : Ppball) :
    (serve c rs b).y_delay < MAX_DELAY ∧
    (serve c rs b).x_delay < MAX_DELAY / 2 := by
  simp [serve, ball_init, rand_number, MAX_DELAY]
  omega

/-- Claim C6: when the collision check reports LOSE, the round controller
    serves again exactly when balls remain (remain > 0); with remain = 0 it
    takes the game-over branch (final message, terminate) and does not
    serve. -/
theorem is_next_round_reserve_iff (c : Ppcourt) (rA rB : Nat) (rs : Rands)
    (bp : Ppball) (pp : Pppaddle)
    (hlose : (bounce_or_lose c rA rB bp pp).1 = LOSE) :
    ((is_next_round c rA rB rs bp pp).1 = RoundAction.reserve ↔
        0 < bp.remain) ∧
    (bp.remain = 0 →
        (is_next_round c rA rB rs bp pp).1 = RoundAction.gameOver) := by
  unfold is_next_round
  dsimp only
  rw [if_pos hlose]
  simp only [get_balls_left, bounce_remain_eq]
  constructor
  · split_ifs with h <;> simp [h]
  · intro h0
    rw [if_neg (by omega)]

/-- Witness for C6: a LOSE state on the 11x40 court with two balls left. -/
theorem is_next_round_reserve_iff_witness :
    (bounce_or_lose (court_init 3 36 7 3) 0 0 ballW paddleW).1 = LOSE ∧
    (((is_next_round (court_init 3 36 7 3) 0 0 rserve ballW paddleW).1 =
          RoundAction.reserve ↔ 0 < ballW.remain) ∧
      (ballW.remain = 0 →
        (is_next_round (court_init 3 36 7 3) 0 0 rserve ballW paddleW).1 =
          RoundAction.gameOver)) :=
  ⟨by decide,
   is_next_round_reserve_iff (court_init 3 36 7 3) 0 0 rserve ballW paddleW
     (by decide)⟩

/-- Claim C7: serve decrements remain by exactly one, ball_move and
    bounce_or_lose never change remain, and after
    NUM_BALLS + 1 = 4 serve calls on a ball created by new_ball,
    get_balls_left returns -1. -/
theorem serve_lives_accounting (c : Ppcourt) (b : Ppball)
    (rs1 rs2 rs3 rs4 : Rands) :
    (∀ rs bq, (serve c rs bq).remain = bq.remain - 1) ∧
    (∀ bq, (ball_move bq).remain = bq.remain) ∧
    (∀ rA rB bq pq, (bounce_or_lose c rA rB bq pq).2.remain = bq.remain) ∧
    get_balls_left
        (serve c rs4 (serve c rs3 (serve c rs2 (serve c rs1 (new_ball b))))) =
      -1 := by
  refine ⟨fun rs bq => rfl, ?_, fun rA rB bq pq => bounce_remain_eq c rA rB bq pq, ?_⟩
  · intro bq
    unfold ball_move
    dsimp only
    split_ifs <;> rfl
  · simp only [get_balls_left, serve_remain, new_ball]
    norm_num [NUM_BALLS]

/-- Claim C8 (failing trace): on the 11x40 court, a serve can place the ball
    on the top interior row (y = top+1 = 4) moving up with vertical delay 1;
    the very next simulation step (ball_move then bounce_or_lose) leaves the
    ball on the border row y = top itself, with no bounce and no loss
    reported, so the ball is no longer strictly inside the court interior. -/
theorem ball_escapes_court :
    ((serve (set_up_court 11 40) rserve (new_ball junkBall)).y_pos =
        get_top_edge (set_up_court 11 40) + 1 ∧
      (serve (set_up_court 11 40) rserve (new_ball junkBall)).y_dir = -1 ∧
      (serve (set_up_court 11 40) rserve (new_ball junkBall)).y_delay = 1) ∧
    (bounce_or_lose (set_up_court 11 40) 0 0
        (ball_move (serve (set_up_court 11 40) rserve (new_ball junkBall)))
        (new_paddle 11 (set_up_court 11 40))).1 = NO_CONTACT ∧
    ¬ (get_top_edge (set_up_court 11 40) <
        (bounce_or_lose (set_up_court 11 40) 0 0
            (ball_move (serve (set_up_court 11 40) rserve (new_ball junkBall)))
            (new_paddle 11 (set_up_court 11 40))).2.y_pos) := by
  decide

/-- Claim C9: new_paddle computes the paddle height (pad_bot - pad_top + 1)
    as one-third of the interior court height by integer division; the
    height is at least 1 whenever the interior height is at least 3, and an
    interior height of 9 yields a height of exactly 3. -/
theorem new_paddle_height_third (L : Int) (c : Ppcourt)
    (hmin : 3 ≤ get_bot_edge c - get_top_edge c - 1) :
    (new_paddle L c).pad_bot - (new_paddle L c).pad_top + 1 =
        (get_bot_edge c - get_top_edge c - 1) / 3 ∧
    1 ≤ (new_paddle L c).pad_bot - (new_paddle L c).pad_top + 1 ∧
    (get_bot_edge c - get_top_edge c - 1 = 9 →
      (new_paddle L c).pad_bot - (new_paddle L c).pad_top + 1 = 3) := by
  simp only [new_paddle, paddle_init, get_bot_edge, get_top_edge] at hmin ⊢
  exact ⟨by omega, by omega, fun h9 => by omega⟩

/-- Witness for C9 at a court with interior height 9. -/
theorem new_paddle_height_third_witness :
    (new_paddle 15 (court_init 3 36 13 3)).pad_bot -
          (new_paddle 15 (court_init 3 36 13 3)).pad_top + 1 =
        (get_bot_edge (court_init 3 36 13 3) -
            get_top_edge (court_init 3 36 13 3) - 1) / 3 ∧
    1 ≤ (new_paddle 15 (court_init 3 36 13 3)).pad_bot -
          (new_paddle 15 (court_init 3 36 13 3)).pad_top + 1 ∧
    (get_bot_edge (court_init 3 36 13 3) -
        get_top_edge (court_init 3 36 13 3) - 1 = 9 →
      (new_paddle 15 (court_init 3 36 13 3)).pad_bot -
          (new_paddle 15 (court_init 3 36 13 3)).pad_top + 1 = 3) :=
  new_paddle_height_third 15 (court_init 3 36 13 3) (by decide)

/-- Claim C10: bounce_or_lose never changes the ball's position; the
    counters, the lives counter and the symbol are also untouched, and the
    delays can change only in the paddle-contact branch. -/
theorem bounce_preserves_position (c : Ppcourt) (rA rB : Nat) (bp : Ppball)
    (pp : Pppaddle) :
    (bounce_or_lose c rA rB bp pp).2.x_pos = bp.x_pos ∧
    (bounce_or_lose c rA rB bp pp).2.y_pos = bp.y_pos ∧
    (bounce_or_lose c rA rB bp pp).2.x_count = bp.x_count ∧
    (bounce_or_lose c rA rB bp pp).2.y_count = bp.y_count ∧
    (bounce_or_lose c rA rB bp pp).2.remain = bp.remain ∧
    (bounce_or_lose c rA rB bp pp).2.symbol = bp.symbol ∧
    ((bounce_or_lose c rA rB bp pp).2.x_delay = bp.x_delay ∧
        (bounce_or_lose c rA rB bp pp).2.y_delay = bp.y_delay ∨
      paddle_contact bp.y_pos pp = CONTACT) := by
  unfold bounce_or_lose
  dsimp only
  split_ifs <;> simp_all
